import Mathlib

/-!
Verification of the FAT12/FAT16 inspection and recovery tools
(msdosdir.c, msdosdel.c, msdosundel.c) against their specification.

The C sources are shallowly embedded: C `int` values that can go negative
(cluster numbers, file sizes, byte positions) become `Int`; byte values
(unsigned char) become `Nat`; a sector buffer or the raw disk image becomes
a total function from byte offset to byte value (an out-of-bounds C read,
which yields indeterminate memory, is modelled by whatever the function
returns there).  C truncating division and remainder on `int` are embedded
as `Int.tdiv` and `Int.tmod`.
-/

namespace MsdosFat

/-- Two raw bytes, mirroring `struct pair` from the sources. -/
structure BytePair where
  b0 : Nat
  b1 : Nat

/-- Three raw bytes, mirroring `struct triplet` from the sources. -/
structure ByteTriplet where
  b0 : Nat
  b1 : Nat
  b2 : Nat

/-- Four raw bytes, mirroring `struct quad` from the sources. -/
structure ByteQuad where
  b0 : Nat
  b1 : Nat
  b2 : Nat
  b3 : Nat

/-- Function `le2be2` from the sources: a two-byte little-endian value,
`bytes[0] + (bytes[1] << 8)`. -/
def le2be2 (bytes : BytePair) : Nat :=
  bytes.b0 + (bytes.b1 <<< 8)

/-- Function `le2be3` from the sources: extracts one of the two 12-bit values packed
in a byte triplet.  `which` is the C `int` argument; any value other than
1 or 2 is treated as 1, exactly as in the source. -/
def le2be3 (bytes : ByteTriplet) (which : Int) : Nat :=
  let w : Int := if which ≠ 1 ∧ which ≠ 2 then 1 else which
  if w = 1 then
    bytes.b0 + ((bytes.b1 &&& 0x0f) <<< 8)
  else
    (bytes.b2 <<< 4) + ((bytes.b1 &&& 0xf0) >>> 4)

/-- Function `le2be4` from the sources: a four-byte little-endian value. -/
def le2be4 (bytes : ByteQuad) : Nat :=
  bytes.b0 + (bytes.b1 <<< 8) + (bytes.b2 <<< 16) + (bytes.b3 <<< 24)

/-- The derived geometry record, mirroring `struct info` (`FATInfo`) from the
sources (the fields `numClusters`, `filesFound` and `totalSize` are never
used by the operations modelled here and are omitted). -/
structure FATInfo where
  fatType : Nat
  numFATSectors : Nat
  numCopiesFAT : Nat
  sizeofSector : Nat
  firstDataSector : Nat
  numRootEntries : Nat
  numRootClusters : Nat
  reservedSectors : Nat

/-- FAT entry special value `RESERVED_12` from the sources. -/
def RESERVED_12 : Int := 0x001

/-- FAT entry special value `RESERVED_16` from the sources. -/
def RESERVED_16 : Int := 0x0001

/-- FAT entry special value `BAD_CLUSTER_12` from the sources. -/
def BAD_CLUSTER_12 : Int := 0xff7

/-- FAT entry special value `BAD_CLUSTER_16` from the sources. -/
def BAD_CLUSTER_16 : Int := 0xfff7

/-- Function `getNextCluster` from the sources (identical in all three files).
`fatSector` is the currently loaded FAT sector buffer.  For FAT12 the C code
fills only two bytes of a heap-allocated `ByteTriplet` (the byte that the
selected `le2be3` branch never reads is left uninitialized); the model puts
0 in that never-read slot.  For a FAT type other than 12 or 16 the source
returns -1. -/
def getNextCluster (ctx : FATInfo) (fatSector : Int → Nat) (cluster : Int) : Int :=
  if ctx.fatType = 12 then
    if Int.tmod cluster 2 ≠ 0 then
      (le2be3 ⟨0, fatSector (Int.tdiv (cluster - 1) 2 * 3 + 1),
        fatSector (Int.tdiv (cluster - 1) 2 * 3 + 1 + 1)⟩ 2 : Nat)
    else
      (le2be3 ⟨fatSector (Int.tdiv cluster 2 * 3),
        fatSector (Int.tdiv cluster 2 * 3 + 1), 0⟩ 1 : Nat)
  else if ctx.fatType = 16 then
    (le2be2 ⟨fatSector (cluster * 2), fatSector (cluster * 2 + 1)⟩ : Nat)
  else
    -1

-- Helper lemmas about the bit operations used by `le2be3`.

/-- Masking with 0x0f is reduction mod 16. -/
theorem land_fifteen (b : Nat) : b &&& 15 = b % 16 := by
  have h := Nat.and_pow_two_sub_one_eq_mod b 4
  norm_num at h
  exact h

/-- Masking with 0xf0 and shifting right by 4 selects the high nibble. -/
theorem land240_shr4 (b : Nat) : (b &&& 240) >>> 4 = b / 16 % 16 := by
  have h1 : (b &&& 240) >>> 4 = (b &&& 240) / 2 / 2 / 2 / 2 := by
    rw [Nat.shiftRight_eq_div_pow]
    omega
  rw [h1, Nat.and_div_two, Nat.and_div_two, Nat.and_div_two, Nat.and_div_two]
  norm_num
  rw [land_fifteen]
  omega

/-- Bitwise or of a small value with a left-shifted value is addition. -/
theorem lor_shiftLeft_eq_add {b : Nat} (i : Nat) (hb : b < 2 ^ i) (a : Nat) :
    b ||| (a <<< i) = 2 ^ i * a + b := by
  rw [Nat.shiftLeft_eq, Nat.or_comm, Nat.mul_comm a (2 ^ i),
    ← Nat.mul_add_lt_is_or hb a]


/-- Concrete FAT16 geometry used to witness decode lemmas. -/
def ctx16fl : FATInfo := ⟨16, 64, 2, 512, 129, 512, 32, 1⟩

/-- Concrete FAT12 floppy geometry: 512-byte sectors, one reserved sector. -/
def ctxC : FATInfo := ⟨12, 9, 2, 512, 19, 224, 14, 1⟩

/-- Constant byte pattern used as a FAT sector in witnesses. -/
def secW : Int → Nat := fun _ => 0x12

/-- C7: `getNextCluster` decodes FAT entries per the on-disk packing: on
FAT16 the successor of cluster `c` is the little-endian 16-bit value at byte
offset `2*c` of the supplied FAT sector; on FAT12, for even `c` it is formed
from the two bytes at offset `c/2*3` as `b0 ||| ((b1 &&& 0x0F) <<< 8)`, and
for odd `c` from the two bytes at offset `(c-1)/2*3+1` as
`(b2 <<< 4) ||| ((b1 &&& 0xF0) >>> 4)`. -/
theorem getNextCluster_decode (ctx : FATInfo) (sec : Int → Nat) (c : Nat)
    (hb : ∀ i : Int, sec i < 256) :
    (ctx.fatType = 16 →
      getNextCluster ctx sec (c : Int) =
        ((sec ((2 * c : Nat) : Int) ||| (sec ((2 * c + 1 : Nat) : Int) <<< 8) : Nat) : Int)) ∧
    (ctx.fatType = 12 → c % 2 = 0 →
      getNextCluster ctx sec (c : Int) =
        ((sec ((c / 2 * 3 : Nat) : Int) |||
          ((sec ((c / 2 * 3 + 1 : Nat) : Int) &&& 0x0f) <<< 8) : Nat) : Int)) ∧
    (ctx.fatType = 12 → c % 2 = 1 →
      getNextCluster ctx sec (c : Int) =
        (((sec (((c - 1) / 2 * 3 + 1 + 1 : Nat) : Int) <<< 4) |||
          ((sec (((c - 1) / 2 * 3 + 1 : Nat) : Int) &&& 0xf0) >>> 4) : Nat) : Int)) := by
  refine ⟨?_, ?_, ?_⟩
  · intro h16
    unfold getNextCluster
    rw [if_neg (by simp [h16]), if_pos h16]
    have e1 : ((c : Int) * 2) = ((2 * c : Nat) : Int) := by push_cast; ring
    have e2 : ((c : Int) * 2 + 1) = ((2 * c + 1 : Nat) : Int) := by push_cast; ring
    rw [e2, e1]
    rw [lor_shiftLeft_eq_add 8 (hb _)]
    simp [le2be2, Nat.shiftLeft_eq]
    push_cast
    ring
  · intro h12 hc
    unfold getNextCluster
    rw [if_pos h12]
    have hm : Int.tmod (c : Int) 2 = 0 := by
      rw [show (2 : Int) = ((2 : Nat) : Int) from rfl, ← Int.ofNat_tmod, hc]
      rfl
    rw [if_neg (by simp [hm])]
    have e1 : Int.tdiv (c : Int) 2 * 3 = ((c / 2 * 3 : Nat) : Int) := by
      rw [show (2 : Int) = ((2 : Nat) : Int) from rfl, ← Int.ofNat_tdiv]
      push_cast
      ring
    have e2 : Int.tdiv (c : Int) 2 * 3 + 1 = ((c / 2 * 3 + 1 : Nat) : Int) := by
      rw [e1]; push_cast; ring
    rw [e2, e1]
    rw [lor_shiftLeft_eq_add 8 (hb _)]
    simp [le2be3, Nat.shiftLeft_eq]
    push_cast
    ring
  · intro h12 hc
    unfold getNextCluster
    rw [if_pos h12]
    have hm : Int.tmod (c : Int) 2 = 1 := by
      rw [show (2 : Int) = ((2 : Nat) : Int) from rfl, ← Int.ofNat_tmod, hc]
      rfl
    rw [if_pos (by simp [hm])]
    have hc1 : 1 ≤ c := by omega
    have e0 : ((c : Int) - 1) = ((c - 1 : Nat) : Int) := by push_cast [hc1]; ring
    have e1 : Int.tdiv ((c : Int) - 1) 2 * 3 + 1 = (((c - 1) / 2 * 3 + 1 : Nat) : Int) := by
      rw [e0, show (2 : Int) = ((2 : Nat) : Int) from rfl, ← Int.ofNat_tdiv]
      push_cast
      ring
    have e2 : Int.tdiv ((c : Int) - 1) 2 * 3 + 1 + 1 =
        (((c - 1) / 2 * 3 + 1 + 1 : Nat) : Int) := by
      rw [e1]; push_cast; ring
    rw [e2, e1]
    rw [Nat.or_comm, lor_shiftLeft_eq_add 4 (by rw [land240_shr4]; omega)]
    simp [le2be3, Nat.shiftLeft_eq]
    push_cast
    ring

/-- Witness for C7 at a concrete FAT16 geometry, sector and cluster. -/
theorem getNextCluster_decode_witness :
    ctx16fl.fatType = 16 ∧
    getNextCluster ctx16fl secW ((3 : Nat) : Int) =
      ((secW ((2 * 3 : Nat) : Int) ||| (secW ((2 * 3 + 1 : Nat) : Int) <<< 8) : Nat) : Int) :=
  ⟨rfl, (getNextCluster_decode ctx16fl secW 3 (fun _ => by norm_num [secW])).1 rfl⟩

/-- C8: for every byte triplet, `le2be3 _ 1 ||| (le2be3 _ 2 <<< 12)` equals
the combined 24-bit value `b0 ||| (b1 <<< 8) ||| (b2 <<< 16)`; `le2be3 _ 1`
is `b0 ||| ((b1 &&& 0x0F) <<< 8)` and `le2be3 _ 2` is
`(b2 <<< 4) ||| ((b1 &&& 0xF0) >>> 4)`. -/
theorem le2be3_reconstruction (b0 b1 b2 : Nat)
    (h0 : b0 < 256) (h1 : b1 < 256) (h2 : b2 < 256) :
    le2be3 ⟨b0, b1, b2⟩ 1 ||| (le2be3 ⟨b0, b1, b2⟩ 2 <<< 12) =
      (b0 ||| (b1 <<< 8)) ||| (b2 <<< 16) ∧
    le2be3 ⟨b0, b1, b2⟩ 1 = b0 ||| ((b1 &&& 0x0f) <<< 8) ∧
    le2be3 ⟨b0, b1, b2⟩ 2 = (b2 <<< 4) ||| ((b1 &&& 0xf0) >>> 4) := by
  have e1 : le2be3 ⟨b0, b1, b2⟩ 1 = b0 + b1 % 16 * 2 ^ 8 := by
    simp [le2be3, land_fifteen, Nat.shiftLeft_eq]
  have e2 : le2be3 ⟨b0, b1, b2⟩ 2 = b2 * 2 ^ 4 + b1 / 16 % 16 := by
    simp [le2be3, land240_shr4, Nat.shiftLeft_eq]
  refine ⟨?_, ?_, ?_⟩
  · rw [lor_shiftLeft_eq_add 12 (by omega)]
    rw [lor_shiftLeft_eq_add 8 h0]
    rw [lor_shiftLeft_eq_add 16 (by omega)]
    rw [e2, e1]
    omega
  · rw [lor_shiftLeft_eq_add 8 h0, e1, land_fifteen]
    omega
  · rw [Nat.or_comm, lor_shiftLeft_eq_add 4 (by rw [land240_shr4]; omega), e2,
      land240_shr4]
    ring

/-- Witness for C8 at the concrete byte triplet 0x12 0x34 0x56. -/
theorem le2be3_reconstruction_witness :
    (0x12 : Nat) < 256 ∧
    le2be3 ⟨0x12, 0x34, 0x56⟩ 1 ||| (le2be3 ⟨0x12, 0x34, 0x56⟩ 2 <<< 12) =
      ((0x12 : Nat) ||| ((0x34 : Nat) <<< 8)) ||| ((0x56 : Nat) <<< 16) :=
  ⟨by norm_num,
    (le2be3_reconstruction 0x12 0x34 0x56 (by norm_num) (by norm_num) (by norm_num)).1⟩

/-- The guard of the chain-walking loops (`msdosundel.c` lines 278-279 and
847-848): a cluster is followed only if it lies strictly between the
reserved marker and the bad-cluster marker of the active FAT type. -/
def goodCluster (ctx : FATInfo) (c : Int) : Bool :=
  decide ((ctx.fatType = 12 ∧ RESERVED_12 < c ∧ c < BAD_CLUSTER_12) ∨
    (ctx.fatType = 16 ∧ RESERVED_16 < c ∧ c < BAD_CLUSTER_16))

/-- Function `getCorrectFATSector` from the sources.  The returned sector buffer is
modelled as a function of the byte offset within the buffer; reloading makes
it read the image at the seek position the C code computes, namely
`startFAT + sizeofSector * (sizeofSector * (nextCluster / entriesPerFATSector))`
(the doubled `sizeofSector` scaling is in the source).  A read past the end
of the C buffer is modelled by the image byte at the corresponding offset. -/
def getCorrectFATSector (ctx : FATInfo) (img fatSector : Int → Nat)
    (curFATSector nextCluster : Int) : Int → Nat :=
  if ctx.fatType = 12 ∨ ctx.fatType = 16 then
    let entriesPerFATSector : Int :=
      if ctx.fatType = 12 then ((ctx.sizeofSector * 2 / 3 : Nat) : Int)
      else ((ctx.sizeofSector / 2 : Nat) : Int)
    if nextCluster < curFATSector * entriesPerFATSector ∨
        nextCluster > curFATSector * entriesPerFATSector + entriesPerFATSector then
      fun i => img ((ctx.sizeofSector : Int) * (ctx.reservedSectors : Int) +
        (ctx.sizeofSector : Int) *
          ((ctx.sizeofSector : Int) * Int.tdiv nextCluster entriesPerFATSector) + i)
    else fatSector
  else fatSector

/-- The `while (!endOfFile)` loop of `getClusters` (`msdosundel.c` lines
275-308).  `fileSize` is the remaining unconsumed size; the loop collects the
current cluster, decrements the remaining size by one sector and follows the
FAT, stopping on a non-good cluster or once the remaining size has fallen
below `-sizeofSector`.  `curFATSector` stays at its initial value because the
C loop never reassigns the caller's variable.  The loop terminates because
the remaining size strictly decreases while bounded below, which requires a
positive sector size (`hz`); with a zero sector size the C loop would not
terminate. -/
def getClustersLoop (ctx : FATInfo) (hz : 0 < ctx.sizeofSector) (img fatSector : Int → Nat)
    (curFATSector nextCluster fileSize : Int) : List Int :=
  if goodCluster ctx nextCluster then
    if fileSize < -(ctx.sizeofSector : Int) then []
    else
      nextCluster ::
        getClustersLoop ctx hz img
          (getCorrectFATSector ctx img fatSector curFATSector nextCluster) curFATSector
          (getNextCluster ctx
            (getCorrectFATSector ctx img fatSector curFATSector nextCluster) nextCluster)
          (fileSize - ctx.sizeofSector)
  else []
termination_by (fileSize + ctx.sizeofSector + 1).toNat
decreasing_by omega

/-- Function `getClusters` from `msdosundel.c`: rebuilds a file's cluster chain from
its starting cluster and declared size.  The C function returns a list with
a dummy head node whose `cluster` field is never initialized; the model
returns the collected clusters (every consumer either skips the head or
reads only its uninitialized field). -/
def getClusters (ctx : FATInfo) (hz : 0 < ctx.sizeofSector) (img : Int → Nat)
    (startingCluster fileSize : Int) : List Int :=
  getClustersLoop ctx hz img (fun _ => 0) (-1) startingCluster fileSize

/-- Function `verifySize` from `msdosundel.c`: counts the clusters of the chain (the
C code skips the dummy head node, so the count is the length of the modelled
list) and accepts exactly when `count * sizeofSector` is neither below the
declared size nor above the declared size plus one sector. -/
def verifySize (ctx : FATInfo) (clusters : List Int) (fileSize : Int) : Bool :=
  if ((clusters.length * ctx.sizeofSector : Nat) : Int) < fileSize then false
  else if ((clusters.length * ctx.sizeofSector : Nat) : Int) > fileSize + ctx.sizeofSector then
    false
  else true

/-- Function `clusterListsCollide` from `msdosundel.c`: nested scan for a shared
cluster.  (The C traversal also visits the two uninitialized dummy head
nodes; the model compares the collected clusters.) -/
def clusterListsCollide (cl1 cl2 : List Int) : Bool :=
  cl1.any fun c1 => cl2.any fun c2 => c1 == c2

/-- One node of the scanned directory-entry list, mirroring `struct dirlist`
of `msdosundel.c`.  `name0` is the first byte of the stored display name
(0xE5 for a deleted entry; the first raw byte of the slot otherwise). -/
structure DirectoryList where
  name0 : Nat
  posInFile : Int
  startingCluster : Int
  timeModified : Int
  fileSize : Int

/-- The scan loop of `checkValid` (`msdosundel.c` lines 375-396): walks the
whole entry list with a 1-based counter, skips the position equal to
`posInList`, and for every other entry modified strictly later than the
candidate rebuilds its chain and tests for a shared cluster. -/
def checkValidLoop (ctx : FATInfo) (hz : 0 < ctx.sizeofSector) (img : Int → Nat)
    (cl : List Int) (fileToCheck : DirectoryList) (posInList : Int) :
    Int → List DirectoryList → Bool
  | _, [] => true
  | counter, entry :: rest =>
    if counter + 1 ≠ posInList then
      if entry.timeModified > fileToCheck.timeModified then
        if clusterListsCollide cl
            (getClusters ctx hz img entry.startingCluster entry.fileSize) then false
        else checkValidLoop ctx hz img cl fileToCheck posInList (counter + 1) rest
      else checkValidLoop ctx hz img cl fileToCheck posInList (counter + 1) rest
    else checkValidLoop ctx hz img cl fileToCheck posInList (counter + 1) rest

/-- Function `checkValid` from `msdosundel.c`: rebuilds the candidate's chain, rejects
if the size check fails, then runs the collision scan over all entries. -/
def checkValid (ctx : FATInfo) (hz : 0 < ctx.sizeofSector) (img : Int → Nat)
    (entries : List DirectoryList) (fileToCheck : DirectoryList) (posInList : Int) : Bool :=
  if verifySize ctx
      (getClusters ctx hz img fileToCheck.startingCluster fileToCheck.fileSize)
      fileToCheck.fileSize = false then false
  else
    checkValidLoop ctx hz img
      (getClusters ctx hz img fileToCheck.startingCluster fileToCheck.fileSize)
      fileToCheck posInList 0 entries

/-- The confirm-and-restore tail of `undeleteFile` (`msdosundel.c` lines
438-462), as a predicate telling whether a byte is written to the image.
`answer` is the byte the user types at the `Restore NAME? [y/n]` prompt; the
source then executes `c = 'y';` (line 444), unconditionally overwriting that
answer before the comparison, which is embedded faithfully below.  When the
comparison succeeds and `checkValid` accepts, the letter prompt loops until
an ASCII letter arrives and one byte is then written, so a write happens
exactly when `checkValid` accepts. -/
def undeleteFileWrites (ctx : FATInfo) (hz : 0 < ctx.sizeofSector) (img : Int → Nat)
    (entries : List DirectoryList) (fileToUndelete : DirectoryList) (posInList : Int)
    (answer : Nat) : Bool :=
  let c := answer
  let c := 0x79
  if c = 0x79 ∨ c = 0x59 then
    if checkValid ctx hz img entries fileToUndelete posInList = false then false
    else true
  else false

-- Unfolding lemmas for the chain-walking loop.

/-- The loop stops on a non-good cluster. -/
theorem getClustersLoop_not_good (ctx : FATInfo) (hz : 0 < ctx.sizeofSector)
    (img fatSector : Int → Nat) (curFATSector nextCluster fileSize : Int)
    (h : goodCluster ctx nextCluster = false) :
    getClustersLoop ctx hz img fatSector curFATSector nextCluster fileSize = [] := by
  rw [getClustersLoop.eq_def]
  simp [h]

/-- The loop stops once the remaining size is below `-sizeofSector`. -/
theorem getClustersLoop_too_far (ctx : FATInfo) (hz : 0 < ctx.sizeofSector)
    (img fatSector : Int → Nat) (curFATSector nextCluster fileSize : Int)
    (h : fileSize < -(ctx.sizeofSector : Int)) :
    getClustersLoop ctx hz img fatSector curFATSector nextCluster fileSize = [] := by
  rw [getClustersLoop.eq_def]
  by_cases hg : goodCluster ctx nextCluster <;> simp [hg, h]

/-- One productive iteration of the loop. -/
theorem getClustersLoop_step (ctx : FATInfo) (hz : 0 < ctx.sizeofSector)
    (img fatSector : Int → Nat) (curFATSector nextCluster fileSize : Int)
    (h1 : goodCluster ctx nextCluster = true)
    (h2 : ¬ fileSize < -(ctx.sizeofSector : Int)) :
    getClustersLoop ctx hz img fatSector curFATSector nextCluster fileSize =
      nextCluster ::
        getClustersLoop ctx hz img
          (getCorrectFATSector ctx img fatSector curFATSector nextCluster) curFATSector
          (getNextCluster ctx
            (getCorrectFATSector ctx img fatSector curFATSector nextCluster) nextCluster)
          (fileSize - ctx.sizeofSector) := by
  rw [getClustersLoop.eq_def]
  simp [h1, h2]

/-- Length bound for the loop: each iteration consumes one sector of the
remaining size, which never goes below `-sizeofSector`. -/
theorem getClustersLoop_len (ctx : FATInfo) (hz : 0 < ctx.sizeofSector) (img : Int → Nat) :
    ∀ (n : Nat) (fatSector : Int → Nat) (curFATSector nextCluster fileSize : Int),
      (fileSize + ctx.sizeofSector + 1).toNat ≤ n →
      (getClustersLoop ctx hz img fatSector curFATSector nextCluster fileSize).length ≤
        (fileSize + ctx.sizeofSector).toNat / ctx.sizeofSector + 1 := by
  intro n
  induction n with
  | zero =>
    intro fatSector cur nc rem h
    rw [getClustersLoop_too_far ctx hz img fatSector cur nc rem (by omega)]
    simp
  | succ n ih =>
    intro fatSector cur nc rem h
    by_cases hg : goodCluster ctx nc
    · by_cases hf : rem < -(ctx.sizeofSector : Int)
      · rw [getClustersLoop_too_far ctx hz img fatSector cur nc rem hf]
        simp
      · rw [getClustersLoop_step ctx hz img fatSector cur nc rem hg hf]
        rw [List.length_cons]
        by_cases hneg : rem < 0
        · rw [getClustersLoop_too_far ctx hz img _ cur _ _ (by omega)]
          simp
        · have hrec := ih
            (getCorrectFATSector ctx img fatSector cur nc) cur
            (getNextCluster ctx (getCorrectFATSector ctx img fatSector cur nc) nc)
            (rem - ctx.sizeofSector) (by omega)
          have e : rem - (ctx.sizeofSector : Int) + ctx.sizeofSector = rem := by ring
          rw [e] at hrec
          have e2 : (rem + (ctx.sizeofSector : Int)).toNat = rem.toNat + ctx.sizeofSector := by
            omega
          rw [e2, Nat.add_div_right _ hz]
          omega
    · rw [getClustersLoop_not_good ctx hz img fatSector cur nc rem (by simpa using hg)]
      simp

/-- C10: for every image, starting cluster and non-negative declared size,
the chain rebuild terminates (it is a total function) and collects at most
`fileSize / sizeofSector + 2` clusters, whatever the FAT contains (cyclic
chains included): the remaining-size counter falls by one sector per
collected cluster and the walk stops once it drops below `-sizeofSector`. -/
theorem getClusters_length_bound (ctx : FATInfo) (hz : 0 < ctx.sizeofSector)
    (img : Int → Nat) (startingCluster fileSize : Int) (hS : 0 ≤ fileSize) :
    (getClusters ctx hz img startingCluster fileSize).length ≤
      fileSize.toNat / ctx.sizeofSector + 2 := by
  have h := getClustersLoop_len ctx hz img ((fileSize + ctx.sizeofSector + 1).toNat)
    (fun _ => 0) (-1) startingCluster fileSize le_rfl
  unfold getClusters
  have e : (fileSize + (ctx.sizeofSector : Int)).toNat = fileSize.toNat + ctx.sizeofSector := by
    omega
  rw [e, Nat.add_div_right _ hz] at h
  omega

/-- Witness for C10 at a concrete geometry, image, cluster and size. -/
theorem getClusters_length_bound_witness :
    0 < ctxC.sizeofSector ∧ (0 : Int) ≤ 0 ∧
    (getClusters ctxC (by decide) (fun _ => 0) 2 0).length ≤
      (0 : Int).toNat / ctxC.sizeofSector + 2 :=
  ⟨by decide, le_refl 0,
    getClusters_length_bound ctxC (by decide) (fun _ => 0) 2 0 (le_refl 0)⟩

/-- C2: the size check accepts exactly when `count * sizeofSector` lies in
the band `[fileSize, fileSize + sizeofSector]`, and a candidate whose
estimate falls outside the band is reported unrecoverable (`checkValid`
returns 0) and causes no write in the undelete session. -/
theorem verifySize_band :
    (∀ (ctx : FATInfo) (clusters : List Int) (fileSize : Int),
      verifySize ctx clusters fileSize = true ↔
        (fileSize ≤ ((clusters.length * ctx.sizeofSector : Nat) : Int) ∧
          ((clusters.length * ctx.sizeofSector : Nat) : Int) ≤ fileSize + ctx.sizeofSector)) ∧
    (∀ (ctx : FATInfo) (hz : 0 < ctx.sizeofSector) (img : Int → Nat)
      (entries : List DirectoryList) (fileToCheck : DirectoryList)
      (posInList : Int) (answer : Nat),
      verifySize ctx
        (getClusters ctx hz img fileToCheck.startingCluster fileToCheck.fileSize)
        fileToCheck.fileSize = false →
      checkValid ctx hz img entries fileToCheck posInList = false ∧
      undeleteFileWrites ctx hz img entries fileToCheck posInList answer = false) := by
  constructor
  · intro ctx clusters fileSize
    unfold verifySize
    split_ifs with h1 h2 <;> simp <;> omega
  · intro ctx hz img entries fileToCheck posInList answer hv
    have hcv : checkValid ctx hz img entries fileToCheck posInList = false := by
      unfold checkValid
      rw [if_pos hv]
    refine ⟨hcv, ?_⟩
    unfold undeleteFileWrites
    simp [hcv]

-- Concrete FAT12 image fragments.  With `ctxC` (512-byte sectors, one
-- reserved sector) the FAT region starts at byte 512 and, for clusters
-- below 341, every reload of the FAT window lands at byte 512, so FAT
-- entry bytes for cluster c live at image offset 512 + (packed offset of c).

/-- Image whose FAT maps cluster 5 to the end marker 0xFFF (entry 5 is odd,
packed at FAT bytes 7 and 8). -/
def imgC : Int → Nat := fun i =>
  if i = 519 then 0xf0 else if i = 520 then 0xff else 0

/-- Image whose FAT chains cluster 5 to 6 to 7 and then the end marker:
FAT bytes 7..11 hold the three packed 12-bit entries. -/
def imgD : Int → Nat := fun i =>
  if i = 519 then 0x60 else if i = 520 then 0x00 else if i = 521 then 0x07
  else if i = 522 then 0xf0 else if i = 523 then 0xff else 0

/-- Positivity of the concrete sector size. -/
theorem ctxC_pos : 0 < ctxC.sizeofSector := by decide

/-- A deleted entry starting at cluster 5, modification stamp 2, size 512. -/
def entryA : DirectoryList := ⟨0xe5, 1000, 5, 2, 512⟩

/-- A deleted entry starting at cluster 5, modification stamp 1, size 512. -/
def entryB : DirectoryList := ⟨0xe5, 1032, 5, 1, 512⟩

/-- A deleted entry starting at cluster 5 with declared size 1025. -/
def entryD : DirectoryList := ⟨0xe5, 1064, 5, 3, 1025⟩

/-- A deleted entry starting at cluster 5 with declared size 2000 (its
chain on `imgC` is a single cluster, so the size check fails). -/
def entryS : DirectoryList := ⟨0xe5, 1096, 5, 1, 2000⟩

/-- On `imgC`, the rebuilt chain of a 512-byte file at cluster 5 is [5]. -/
theorem getClusters_imgC_512 : getClusters ctxC ctxC_pos imgC 5 512 = [5] := by
  unfold getClusters
  rw [getClustersLoop_step _ _ _ _ _ _ _ (by decide) (by decide)]
  rw [getClustersLoop_not_good _ _ _ _ _ _ _ (by decide)]

/-- On `imgC`, the rebuilt chain for declared size 2000 is still [5]. -/
theorem getClusters_imgC_2000 : getClusters ctxC ctxC_pos imgC 5 2000 = [5] := by
  unfold getClusters
  rw [getClustersLoop_step _ _ _ _ _ _ _ (by decide) (by decide)]
  rw [getClustersLoop_not_good _ _ _ _ _ _ _ (by decide)]

/-- On `imgD`, the rebuilt chain of a 1025-byte file at cluster 5 is
[5, 6, 7]. -/
theorem getClusters_imgD_1025 : getClusters ctxC ctxC_pos imgD 5 1025 = [5, 6, 7] := by
  unfold getClusters
  rw [getClustersLoop_step _ _ _ _ _ _ _ (by decide) (by decide)]
  rw [getClustersLoop_step _ _ _ _ _ _ _ (by decide) (by decide)]
  rw [getClustersLoop_step _ _ _ _ _ _ _ (by decide) (by decide)]
  rw [getClustersLoop_not_good _ _ _ _ _ _ _ (by decide)]
  decide

/-- Evaluation fact: `checkValid` accepts `entryB` at list position 1 of `[entryA, entryB]`,
although `entryA` was modified later and its chain shares cluster 5: the
1-based scan counter skips `entryA` (position 1 equals `posInList`), and the
candidate itself is compared at position 2, where the strict timestamp test
is vacuous. -/
theorem checkValid_AB : checkValid ctxC ctxC_pos imgC [entryA, entryB] entryB 1 = true := by
  unfold checkValid
  simp only [entryB]
  rw [getClusters_imgC_512]
  decide

/-- C3 (code bug): the collision scan of `checkValid` skips the list
position given by `posInList`, but `undeleteFile` passes the candidate's
rank among the deleted entries minus one, which for the second deleted entry
of `[entryA, entryB]` is position 1 — the position of `entryA`, not of the
candidate.  `checkValid` therefore accepts `entryB` even though `entryA` has
a strictly greater modification stamp and its rebuilt chain shares cluster 5
with the candidate's chain, contradicting the claimed if-and-only-if (the
comment in the source says the skip is meant for the candidate itself). -/
theorem checkValid_accepts_despite_newer_overlap :
    checkValid ctxC ctxC_pos imgC [entryA, entryB] entryB 1 = true ∧
    entryB.timeModified < entryA.timeModified ∧
    clusterListsCollide
      (getClusters ctxC ctxC_pos imgC entryB.startingCluster entryB.fileSize)
      (getClusters ctxC ctxC_pos imgC entryA.startingCluster entryA.fileSize) = true := by
  refine ⟨checkValid_AB, by decide, ?_⟩
  simp only [entryA, entryB]
  rw [getClusters_imgC_512]
  decide

/-- C1 (code bug): the user answers `n` (byte 110) at the confirmation
prompt for a restorable candidate, yet the session still reaches the write:
line 444 of `msdosundel.c` (`c = 'y';`) overwrites the answer before it is
tested, so declining does not prevent the write. -/
theorem undeleteFile_writes_after_decline :
    undeleteFileWrites ctxC ctxC_pos imgC [entryA, entryB] entryB 1 110 = true := by
  simp [undeleteFileWrites, checkValid_AB]

/-- C4 counterexample: the entry with declared size 1025 whose chain
rebuild yields the 3 clusters [5, 6, 7] (estimate 1536) is NOT rejected:
the size check and the whole validator accept it, because
1536 ≤ 1025 + 512 = 1537. -/
theorem ddat_size_check_accepts :
    verifySize ctxC (getClusters ctxC ctxC_pos imgD 5 1025) 1025 = true ∧
    checkValid ctxC ctxC_pos imgD [entryD] entryD 0 = true := by
  constructor
  · rw [getClusters_imgD_1025]
    decide
  · unfold checkValid
    simp only [entryD]
    rw [getClusters_imgD_1025]
    decide

/-- C4 amended: on a FAT12 image with sector size 512, a deleted entry of
declared size 1025 whose chain rebuild yields 3 clusters (estimate 1536) is
ACCEPTED by the size check, since 1536 lies within the band
[1025, 1025 + 512]. -/
theorem ddat_chain_in_band :
    getClusters ctxC ctxC_pos imgD 5 1025 = [5, 6, 7] ∧
    ((1025 : Int) ≤ 3 * ctxC.sizeofSector ∧
      (3 * ctxC.sizeofSector : Int) ≤ 1025 + ctxC.sizeofSector) ∧
    verifySize ctxC [5, 6, 7] 1025 = true :=
  ⟨getClusters_imgD_1025, by decide, by decide⟩

/-- Witness for C2 at a concrete geometry and chain: a candidate of declared
size 2000 whose chain estimate is 512 fails the band and the validator and
the undelete session reject it with no write. -/
theorem verifySize_band_witness :
    verifySize ctxC
      (getClusters ctxC ctxC_pos imgC entryS.startingCluster entryS.fileSize)
      entryS.fileSize = false ∧
    checkValid ctxC ctxC_pos imgC [entryS] entryS 0 = false ∧
    undeleteFileWrites ctxC ctxC_pos imgC [entryS] entryS 0 121 = false := by
  have hv : verifySize ctxC
      (getClusters ctxC ctxC_pos imgC entryS.startingCluster entryS.fileSize)
      entryS.fileSize = false := by
    simp only [entryS]
    rw [getClusters_imgC_2000]
    decide
  have h := verifySize_band.2 ctxC ctxC_pos imgC [entryS] entryS 0 121 hv
  exact ⟨hv, h.1, h.2⟩

/-- The selection-and-write tail of `deleteFile` (`msdosdel.c` lines
238-258) as an image transformer.  The C loop advances `n` times from the
dummy list head, landing on the `n`-th listed entry (index `n-1`); on a
confirming answer it seeks to that entry's `posInFile` and writes the single
byte `DELETED` (the `fwrite(&DELETED, 1, 1, fs)` stores the low byte of the
`int` constant 0xE5).  `n = 0` quits without writing. -/
def deleteFileImage (img : Int → Nat) (entries : List DirectoryList) (n : Nat)
    (answer : Nat) : Int → Nat :=
  if n ≠ 0 then
    if answer = 0x79 ∨ answer = 0x59 then
      fun i => if i = (entries.getD (n - 1) ⟨0, 0, 0, 0, 0⟩).posInFile then 0xe5 else img i
    else img
  else img

/-- C5: when the user selects listed entry `n` and confirms with `y`,
exactly one byte — the value 0xE5 at the selected entry's absolute byte
position — is written; every other byte of the image, the FAT region
included, is unchanged. -/
theorem deleteFile_single_byte_frame (img : Int → Nat) (entries : List DirectoryList)
    (n : Nat) (h1 : 1 ≤ n) (h2 : n ≤ entries.length) :
    deleteFileImage img entries n 0x79 (entries.getD (n - 1) ⟨0, 0, 0, 0, 0⟩).posInFile =
      0xe5 ∧
    ∀ i : Int, i ≠ (entries.getD (n - 1) ⟨0, 0, 0, 0, 0⟩).posInFile →
      deleteFileImage img entries n 0x79 i = img i := by
  unfold deleteFileImage
  rw [if_pos (by omega), if_pos (Or.inl rfl)]
  exact ⟨if_pos rfl, fun i hi => if_neg hi⟩

/-- Witness for C5: one entry at byte position 75 in a zero image. -/
theorem deleteFile_single_byte_frame_witness :
    1 ≤ 1 ∧
    deleteFileImage (fun _ => 0) [⟨0x52, 75, 2, 0, 100⟩] 1 0x79
      (([⟨0x52, 75, 2, 0, 100⟩] : List DirectoryList).getD (1 - 1) ⟨0, 0, 0, 0, 0⟩).posInFile =
      0xe5 :=
  ⟨le_refl 1,
    (deleteFile_single_byte_frame (fun _ => 0) [⟨0x52, 75, 2, 0, 100⟩] 1 (le_refl 1)
      (by simp)).1⟩

/-- The per-slot recursion decision of `scanDirectorySector` in `msdosdir.c`
(lines 346-408, identical in `msdosdel.c`): the slot is processed only if
its first byte is neither 0xE5 nor 0x00, the attribute byte is copied from
slot byte 11, non-hidden/system/volume-label slots whose first byte is 0x2E
or whose attribute has the subdirectory bit recurse unless the second byte
is also 0x2E. -/
def scanDirRecurses (slot : Nat → Nat) : Bool :=
  if slot 0 ≠ 0xe5 ∧ slot 0 ≠ 0x00 then
    if slot 11 &&& 0x02 = 0 ∧ slot 11 &&& 0x04 = 0 ∧ slot 11 &&& 0x08 = 0 then
      if slot 0 = 0x2e ∨ slot 11 &&& 0x10 ≠ 0 then
        if slot 1 ≠ 0x2e then true else false
      else false
    else false
  else false

/-- The same decision in `msdosundel.c` (lines 624-736): the scanner there
copies only the timestamp, cluster and size bytes into the freshly
`malloc`-ed `DirectoryEntry` and never assigns `de->attributes`, yet lines
647-650 test `de->attributes`; the tested value is therefore whatever the
heap held (`garbage`), not slot byte 11.  Only never-used slots (first byte
0x00) are skipped in this scanner. -/
def scanUndelRecurses (garbage : Nat) (slot : Nat → Nat) : Bool :=
  if slot 0 ≠ 0x00 then
    if garbage &&& 0x02 = 0 ∧ garbage &&& 0x04 = 0 ∧ garbage &&& 0x08 = 0 then
      if slot 0 = 0x2e ∨ garbage &&& 0x10 ≠ 0 then
        if slot 1 ≠ 0x2e then true else false
      else false
    else false
  else false

/-- A live subdirectory slot named SUB: first byte `S`, second byte `U`,
attribute byte (offset 11) 0x10, starting-cluster low byte 5. -/
def slotSUB : Nat → Nat := fun i =>
  if i = 0 then 0x53 else if i = 1 then 0x55 else if i = 11 then 0x10
  else if i = 26 then 0x05 else 0

/-- C6 (code bug): on the subdirectory slot `slotSUB` (subdirectory bit set
in byte 11, second byte not 0x2E) the dir/del scanner recurses as the claim
states, but the undel scanner's decision is a function of uninitialized heap
memory rather than of the slot's attribute byte: with heap residue 0 it does
not recurse, with heap residue 0x10 it does. -/
theorem scanUndel_ignores_slot_attributes :
    scanDirRecurses slotSUB = true ∧
    scanUndelRecurses 0x00 slotSUB = false ∧
    scanUndelRecurses 0x10 slotSUB = true := by
  decide

/-- The fields of `struct bootsector` that feed the geometry derivation,
at their byte offsets in the 512-byte on-disk layout (the struct is a plain
byte map, so `fread` fills it positionally). -/
structure BootSector where
  numBytesPerSector : BytePair
  numSectorsPerCluster : Nat
  numReservedSectors : BytePair
  numCopiesFAT : Nat
  numEntriesRootDir : BytePair
  numSectors : BytePair
  numSectorsInFAT : BytePair
  largeSectors : ByteQuad

/-- Filling the boot-sector record from a 512-byte buffer, mirroring the
struct layout: bytes-per-sector at 11-12, sectors-per-cluster at 13,
reserved sectors at 14-15, FAT copies at 16, root entries at 17-18, total
sectors at 19-20, sectors-per-FAT at 22-23, large sectors at 32-35. -/
def readBootSectorStruct (buf : Nat → Nat) : BootSector where
  numBytesPerSector := ⟨buf 11, buf 12⟩
  numSectorsPerCluster := buf 13
  numReservedSectors := ⟨buf 14, buf 15⟩
  numCopiesFAT := buf 16
  numEntriesRootDir := ⟨buf 17, buf 18⟩
  numSectors := ⟨buf 19, buf 20⟩
  numSectorsInFAT := ⟨buf 22, buf 23⟩
  largeSectors := ⟨buf 32, buf 33, buf 34, buf 35⟩

/-- Function `getNumberClusters` from the sources.  The C `data_sectors` is an
`unsigned int`, so the subtraction wraps modulo 2^32; division by a zero
`numSectorsPerCluster` or zero sector size is undefined behaviour in C and
yields 0 in this model. -/
def getNumberClusters (bs : BootSector) : Nat :=
  let root_dir_sectors :=
    (le2be2 bs.numEntriesRootDir * 32 + (le2be2 bs.numBytesPerSector - 1)) /
      le2be2 bs.numBytesPerSector
  let data_sectors :=
    if le2be2 bs.numSectors ≠ 0 then
      (Int.emod ((le2be2 bs.numSectors : Int) -
        ((le2be2 bs.numReservedSectors : Int) +
          (bs.numCopiesFAT : Int) * (le2be2 bs.numSectorsInFAT : Int) +
          (root_dir_sectors : Int))) (2 ^ 32)).toNat
    else
      (Int.emod ((le2be4 bs.largeSectors : Int) -
        ((le2be2 bs.numReservedSectors : Int) +
          (bs.numCopiesFAT : Int) * (le2be2 bs.numSectorsInFAT : Int) +
          (root_dir_sectors : Int))) (2 ^ 32)).toNat
  data_sectors / bs.numSectorsPerCluster

/-- Function `getFATType` from the sources. -/
def getFATType (bs : BootSector) : Nat :=
  if getNumberClusters bs < 4085 then 12
  else if getNumberClusters bs < 65525 then 16
  else 32

/-- Function `readBootStrapSector` from the sources.  The C code calls
`fread(bs, sizeof(BootSector), 1, fs)` and never inspects its return value:
when the image holds fewer than 512 bytes the buffer keeps its previous
(heap) contents past the image's end — modelled by `garbage` — and the
geometry is derived from that partially filled buffer unconditionally.
There is no failure path. -/
def readBootStrapSector (imgLen : Nat) (img garbage : Nat → Nat) : FATInfo :=
  let buf := fun i => if i < min imgLen 512 then img i else garbage i
  let bs := readBootSectorStruct buf
  { fatType := getFATType bs
    numFATSectors := le2be2 bs.numSectorsInFAT
    numCopiesFAT := bs.numCopiesFAT
    sizeofSector := le2be2 bs.numBytesPerSector
    firstDataSector := bs.numCopiesFAT * le2be2 bs.numSectorsInFAT + 1
    numRootEntries := le2be2 bs.numEntriesRootDir
    numRootClusters := le2be2 bs.numEntriesRootDir * 32 / le2be2 bs.numBytesPerSector
    reservedSectors := le2be2 bs.numReservedSectors }

/-- Heap residue making the partially read boot sector claim 512-byte
sectors. -/
def garb512 : Nat → Nat := fun i => if i = 12 then 0x02 else 0

/-- Heap residue making the partially read boot sector claim 1024-byte
sectors. -/
def garb1024 : Nat → Nat := fun i => if i = 12 then 0x04 else 0

/-- C9 counterexample: reading a 5-byte image (far shorter than one sector)
does not abort: the reader proceeds and returns a geometry record whose
sector size is whatever the uninitialized buffer tail held (512 with one
heap residue, 1024 with another), instead of failing with ImageTruncated. -/
theorem readBoot_short_read_proceeds :
    5 < 512 ∧
    (readBootStrapSector 5 (fun _ => 0) garb512).sizeofSector = 512 ∧
    (readBootStrapSector 5 (fun _ => 0) garb1024).sizeofSector = 1024 := by
  refine ⟨by norm_num, ?_, ?_⟩ <;> decide

/-- C9 amended: the reader has no short-read check; it always proceeds with
the buffer as filled.  Only when the image supplies at least a full
512-byte sector is the resulting record independent of the unread heap
contents. -/
theorem readBoot_full_read_deterministic (imgLen : Nat) (img g g' : Nat → Nat)
    (h : 512 ≤ imgLen) :
    readBootStrapSector imgLen img g = readBootStrapSector imgLen img g' := by
  unfold readBootStrapSector readBootSectorStruct
  rw [show min imgLen 512 = 512 from by omega]
  norm_num

/-- Witness for C9's amended theorem at a full-length image. -/
theorem readBoot_full_read_deterministic_witness :
    512 ≤ 512 ∧
    readBootStrapSector 512 (fun _ => 0) garb512 =
      readBootStrapSector 512 (fun _ => 0) garb1024 :=
  ⟨le_refl 512,
    readBoot_full_read_deterministic 512 (fun _ => 0) garb512 garb1024 (le_refl 512)⟩

end MsdosFat
